import Mathlib

/-!
Verification of the Local Command Bridge and Notification Relay of the
vyaas backend repository, as a shallow embedding in Lean.

Embedded source files:
  vyaas_desktop_bridge.py   (DesktopBridge: handle_data, execute_command,
                             send_whatsapp, check_whatsapp_service,
                             poll_whatsapp_messages)
  vyaas_whatsapp_listener.py (poll_whatsapp_messages, check_whatsapp_messages)
  vyaas_local_commands.py   (the dispatcher tools and send_local_command)
  agent.py                  (monitor_system alert logic)

Python values are embedded as follows: JSON-ish parameter values become
PVal (string or integer), dictionaries become association lists, Python
sets become lists in iteration order, floats become rationals, raised
exceptions become Except or Option error values, and the number
formatting done by Python f-strings on floats is an abstract parameter
named render.
-/

namespace Vyaas

/-! ## Common parameter values -/

/-- A JSON-style parameter value carried in a command envelope: either a
string or an integer. -/
inductive PVal where
  | s (v : String)
  | i (v : Int)
deriving DecidableEq

/-- A params dictionary, as an association list. -/
abbrev Params := List (String × PVal)

/-- Python dict.get with a default value. -/
def getParam (p : Params) (k : String) (d : PVal) : PVal :=
  match p.lookup k with
  | some v => v
  | none => d

/-- One logging call: level and message. -/
structure LogEntry where
  level : String
  msg : String
deriving DecidableEq

/-- Python str() of an optional string: None prints as "None".  Used for
f-string interpolation of a value obtained from dict.get. -/
def pyShow : Option String → String
  | some s => s
  | none => "None"

/-! ## Execution results (spec-side data model)

Modelled from the spec: the Execution Result record with a status field
equal to "ok" or "error" and a message.  The code of
vyaas_desktop_bridge.py declares no such type and builds no such value;
the type exists here only so that theorems can state whether the bridge
returns one. -/

structure ExecutionResult where
  status : String
  message : String
deriving DecidableEq

/-! ## DesktopBridge.handle_data and DesktopBridge.execute_command
(vyaas_desktop_bridge.py lines 138-203)

The if/elif chain of execute_command invokes one of fourteen bridge
methods.  The methods themselves are out of scope (opaque executors), so
they are a parameter: an oracle mapping the method name and the
extracted arguments to either a normal return or a raised exception. -/

/-- An executor oracle: method name and arguments to either unit (normal
return, the methods return None) or a raised exception message. -/
abbrev Executors := String → List PVal → Except String Unit

/-- The observable outcome of a bridge call: which executor methods were
invoked, the log entries produced, the Execution Result returned to the
caller (execute_command and handle_data return None on every path, so
this field is always none), and an exception escaping the call. -/
structure Run where
  invoked : List String
  logs : List LogEntry
  result : Option ExecutionResult
  exc : Option String
deriving DecidableEq

/-- Invoke one executor method: records the invocation and lets a raised
exception propagate in the exc field. -/
def runExecutor (ex : Executors) (name : String) (args : List PVal) : Run :=
  match ex name args with
  | .ok _ => { invoked := [name], logs := [], result := none, exc := none }
  | .error e => { invoked := [name], logs := [], result := none, exc := some e }

/-- The body of the try block of DesktopBridge.execute_command: the
if/elif dispatch chain of lines 157-200.  Each branch extracts the
parameters exactly as the source does (dict.get with the source default)
and calls the corresponding method; the final else logs the warning
"Unknown command: ...". -/
def execute_command_try (ex : Executors) (command : Option String) (params : Params) : Run :=
  if command = some "open_app" then
    runExecutor ex "open_app" [getParam params "app" (.s "")]
  else if command = some "open_maps" then
    runExecutor ex "open_maps" [getParam params "query" (.s "")]
  else if command = some "open_notes" then
    runExecutor ex "open_notes" [getParam params "content" (.s "")]
  else if command = some "send_whatsapp" then
    runExecutor ex "send_whatsapp" [getParam params "phone" (.s ""), getParam params "message" (.s "")]
  else if command = some "send_whatsapp_contact" then
    runExecutor ex "send_whatsapp_contact" [getParam params "contact" (.s ""), getParam params "message" (.s "")]
  else if command = some "type_text" then
    runExecutor ex "type_text" [getParam params "text" (.s "")]
  else if command = some "press_key" then
    runExecutor ex "press_key" [getParam params "key" (.s "")]
  else if command = some "open_url" then
    runExecutor ex "open_url" [getParam params "url" (.s "")]
  else if command = some "play_youtube" then
    runExecutor ex "play_youtube" [getParam params "query" (.s "")]
  else if command = some "screenshot" then
    runExecutor ex "take_screenshot" []
  else if command = some "set_volume" then
    runExecutor ex "set_volume" [getParam params "level" (.i 50)]
  else if command = some "lock_pc" then
    runExecutor ex "lock_pc" []
  else if command = some "shutdown" then
    runExecutor ex "shutdown" [getParam params "delay" (.i 60)]
  else if command = some "cancel_shutdown" then
    runExecutor ex "cancel_shutdown" []
  else
    { invoked := [], logs := [⟨"warning", "Unknown command: " ++ pyShow command⟩],
      result := none, exc := none }

/-- DesktopBridge.execute_command: the try/except wrapper around the
dispatch chain.  An exception from an executor is caught and logged as
"Error executing ...", and the function returns None (no Execution
Result) on every path. -/
def execute_command (ex : Executors) (command : Option String) (params : Params) : Run :=
  let r := execute_command_try ex command params
  match r.exc with
  | some e =>
      { invoked := r.invoked,
        logs := r.logs ++ [⟨"error", "Error executing " ++ pyShow command ++ ": " ++ e⟩],
        result := none, exc := none }
  | none => r

/-- The decoded JSON payload of an inbound data packet, with the fields
handle_data reads.  The secret field models a shared-secret/token field
a sender could include; handle_data never reads it. -/
structure Envelope where
  type : Option String
  command : Option String
  params : Option Params
  secret : Option String
deriving DecidableEq

/-- DesktopBridge.handle_data: decode the packet (a decode failure is
the except branch), and when the type field is "local_command", log the
"Received command" line and run execute_command.  Returns None (no
Execution Result) on every path. -/
def handle_data (ex : Executors) (packet : Except String Envelope) : Run :=
  match packet with
  | .error e =>
      { invoked := [], logs := [⟨"error", "Error handling data: " ++ e⟩],
        result := none, exc := none }
  | .ok env =>
      if env.type = some "local_command" then
        let r := execute_command ex env.command (env.params.getD [])
        { r with logs := ⟨"info", "Received command: " ++ pyShow env.command⟩ :: r.logs }
      else
        { invoked := [], logs := [], result := none, exc := none }

/-- The command names the dispatch chain of execute_command recognizes. -/
def registeredCommands : List String :=
  ["open_app", "open_maps", "open_notes", "send_whatsapp", "send_whatsapp_contact",
   "type_text", "press_key", "open_url", "play_youtube", "screenshot",
   "set_volume", "lock_pc", "shutdown", "cancel_shutdown"]

/-- An executor oracle whose methods all return normally. -/
def execOk : Executors := fun _ _ => .ok ()

/-- An executor oracle whose methods all raise the exception "boom". -/
def execBoom : Executors := fun _ _ => .error "boom"

/-- A well-formed local_command envelope for lock_pc that carries a
shared-secret field no bridge configuration could match. -/
def envWrongSecret : Envelope :=
  { type := some "local_command", command := some "lock_pc",
    params := some [], secret := some "wrong-secret" }

/-! ## Notification events and the dedup cache
(vyaas_whatsapp_listener.py lines 153-202 and 255-276,
 vyaas_desktop_bridge.py lines 542-567) -/

/-- A notification event as delivered by the messaging service, with the
fields the embedded functions read.  The id field is the JSON id value;
none models an absent key (dict.get returning None). -/
structure Msg where
  id : Option String
  contactName : String
  body : String
  isGroup : Bool
  groupName : String
deriving DecidableEq

/-- State of the listener module: the _last_notified_messages set (the
list order models the iteration order of the Python set; insertions
append) and the messages forwarded to the callback so far, in order. -/
structure ListenerState where
  cache : List (Option String)
  forwarded : List Msg
deriving DecidableEq

/-- One iteration of the for-loop body of poll_whatsapp_messages in
vyaas_whatsapp_listener.py: forward the message and record its id when
the id is truthy (present and nonempty) and not already in the set;
otherwise do nothing. -/
def pollStep (st : ListenerState) (m : Msg) : ListenerState :=
  match m.id with
  | some i =>
      if i = "" then st
      else if some i ∈ st.cache then st
      else { cache := st.cache ++ [some i], forwarded := st.forwarded ++ [m] }
  | none => st

/-- One tick of the listener poll loop applied to the fetched pending
list (an unreachable service or a fetch error yields the empty list). -/
def pollTick (st : ListenerState) (pending : List Msg) : ListenerState :=
  pending.foldl pollStep st

/-- A sequence of listener poll ticks. -/
def pollTicks (st : ListenerState) (ticks : List (List Msg)) : ListenerState :=
  ticks.foldl pollTick st

/-- The number of forwarded messages carrying the id i. -/
def countId (i : String) (ms : List Msg) : Nat :=
  (ms.filter (fun m => m.id = some i)).length

/-- The new_messages list comprehension of check_whatsapp_messages:
pending messages whose id is not in the cache (no truthiness check
here; an absent id passes when none is not in the cache). -/
def newMessages (cache : List (Option String)) (pending : List Msg) : List Msg :=
  pending.filter (fun m => !(decide (m.id ∈ cache)))

/-- The marking loop of check_whatsapp_messages: add each new message id
to the set (a set add is a no-op on an element already present). -/
def addIds (cache : List (Option String)) (ms : List Msg) : List (Option String) :=
  ms.foldl (fun c m => if m.id ∈ c then c else c ++ [m.id]) cache

/-- The size-management step of check_whatsapp_messages (lines 183-184):
when the set holds more than 100 ids, keep only the last 50 of its
iteration order (list(s)[-50:]). -/
def trimCache (cache : List (Option String)) : List (Option String) :=
  if cache.length > 100 then cache.drop (cache.length - 50) else cache

/-- The cache handling of the check_whatsapp_messages tool: filter out
already-notified messages; when none remain the cache is untouched and
nothing is reported; otherwise mark the new ones, trim the cache, and
report the new messages. -/
def check_whatsapp_messages (cache : List (Option String)) (pending : List Msg) :
    List (Option String) × List Msg :=
  let nm := newMessages cache pending
  if nm.isEmpty then (cache, [])
  else (trimCache (addIds cache nm), nm)

/-- DesktopBridge.poll_whatsapp_messages (vyaas_desktop_bridge.py lines
542-567) forwards every message of every fetched pending list via
forward_whatsapp_to_ai; it keeps no dedup cache. -/
def bridgePollForwards (ticks : List (List Msg)) : List Msg :=
  ticks.foldl (fun acc pending => acc ++ pending) []

/-- The event of the dedup scenario: id m1 delivered in two consecutive
pending lists. -/
def msgM1 : Msg :=
  { id := some "m1", contactName := "Alice", body := "hello",
    isGroup := false, groupName := "" }

/-- 101 pending messages with distinct ids, all new. -/
def msgs101 : List Msg :=
  (List.range 101).map (fun n =>
    { id := some (Nat.repr n), contactName := "c", body := "b",
      isGroup := false, groupName := "" })

/-! ## System Health Monitor alert logic (agent.py lines 465-505)

The sampling part of monitor_system (psutil calls and the process scan)
produces a cpu, ram and disk percentage and an optional high-usage
process; the alert logic consumes them.  Percentages and timestamps are
floats, embedded as rationals; the Python f-string rendering of a float
is the abstract parameter render. -/

/-- The pinfo dictionary stored in high_usage_app: process name and its
stored (normalized, rounded) cpu percentage. -/
structure ProcInfo where
  name : String
  cpuPercent : ℚ
deriving DecidableEq

/-- One sampling tick input: the time.time() value and the sampled
metrics. -/
structure Sample where
  time : ℚ
  cpu : ℚ
  ram : ℚ
  disk : ℚ
  highApp : Option ProcInfo
deriving DecidableEq

/-- The CPU alert clause of agent.py line 471. -/
def cpuClause (render : ℚ → String) (c : ℚ) : String :=
  "Arre Bhaiya! CPU " ++ render c ++ "% pahunch gaya hai! PC garam ho raha hai! "

/-- The RAM alert clause of agent.py line 473. -/
def ramClause (render : ℚ → String) (r : ℚ) : String :=
  "Bhaiya, RAM " ++ render r ++ "% full ho gayi hai! Thoda load kam kigiye na. "

/-- The disk alert clause of agent.py line 475. -/
def diskClause (render : ℚ → String) (d : ℚ) : String :=
  "Bhaiya, Disk almost full hai (" ++ render d ++ "%)! Kuch delete karna padega. "

/-- The high-usage process alert clause of agent.py line 477. -/
def appClause (render : ℚ → String) (a : ProcInfo) : String :=
  "Dekho Bhaiya! Ye " ++ a.name ++ " " ++ render a.cpuPercent ++
    "% CPU kha raha hai! Isko band karoon kya? "

/-- The alert_msg accumulation of agent.py lines 468-477: starting from
the empty string, append one clause per breached threshold (90 for CPU,
RAM and disk) and one for a truthy high_usage_app. -/
def alertMsg (render : ℚ → String) (s : Sample) : String :=
  (if s.cpu > 90 then cpuClause render s.cpu else "")
  ++ (if s.ram > 90 then ramClause render s.ram else "")
  ++ (if s.disk > 90 then diskClause render s.disk else "")
  ++ (match s.highApp with
      | some a => appClause render a
      | none => "")

/-- Modelled from the spec: the list holding exactly one clause per
breached condition and no clause for an unbreached one, in the order
CPU, RAM, disk, process. -/
def specBreachClauses (render : ℚ → String) (s : Sample) : List String :=
  (if s.cpu > 90 then [cpuClause render s.cpu] else [])
  ++ (if s.ram > 90 then [ramClause render s.ram] else [])
  ++ (if s.disk > 90 then [diskClause render s.disk] else [])
  ++ (match s.highApp with
      | some a => [appClause render a]
      | none => [])

/-- Concatenation of a list of clauses into one message. -/
def joinClauses (l : List String) : String :=
  l.foldl (fun a b => a ++ b) ""

/-- The alert logic of one monitor_system tick (agent.py lines 466-505):
when strictly more than ALERT_COOLDOWN = 60 seconds have passed since
last_alert_time, compose the alert message; when it is nonempty, emit it
(publish on the system_alert topic and request speech) and set
last_alert_time to the current time.  Returns the new last_alert_time
and the emissions (time and message) of this tick. -/
def monitorTick (render : ℚ → String) (last : ℚ) (s : Sample) : ℚ × List (ℚ × String) :=
  if s.time - last > 60 then
    if alertMsg render s = "" then (last, [])
    else (s.time, [(s.time, alertMsg render s)])
  else (last, [])

/-- The alert emissions of a run of the monitor loop over a list of
sampling ticks, starting from a given last_alert_time (0 at startup). -/
def monitorEmissions (render : ℚ → String) (last : ℚ) : List Sample → List (ℚ × String)
  | [] => []
  | s :: rest =>
      (monitorTick render last s).2 ++ monitorEmissions render (monitorTick render last s).1 rest

/-- A sampling tick at the given time with CPU 95%, RAM 50%, disk 50%
and no high-usage process. -/
def cpuOnlySample (t : ℚ) : Sample :=
  { time := t, cpu := 95, ram := 50, disk := 50, highApp := none }

/-! ## DesktopBridge.send_whatsapp fallback tiering
(vyaas_desktop_bridge.py lines 248-270 and 376-391)

The companion WhatsApp Service is an external collaborator; its
responses to the two HTTP calls the executor makes are the input.  Any
raised exception of the requests library (timeout, connection error,
JSON decode failure) is one exc value, because every except clause
involved catches indiscriminately. -/

/-- The JSON body of a GET /health response. -/
structure HealthResp where
  status : Nat
  ready : Bool
  hasQR : Bool
deriving DecidableEq

/-- Outcome of one HTTP request: a response, or a raised exception
(timeout, connection refused, ...). -/
inductive NetResult (α : Type) where
  | ok (r : α)
  | exc (e : String)
deriving DecidableEq

/-- The environment of one send_whatsapp call: what GET /health and
POST /send would produce (the send field holds the response status
code). -/
structure WhatsEnv where
  health : NetResult HealthResp
  send : NetResult Nat
deriving DecidableEq

/-- DesktopBridge.check_whatsapp_service: one GET /health with a 2
second timeout; returns true exactly when the response has status 200
and a truthy ready flag; every exception is swallowed and yields
false. -/
def check_whatsapp_service (env : WhatsEnv) : Bool :=
  match env.health with
  | .ok r => if r.status = 200 then (if r.ready then true else false) else false
  | .exc _ => false

/-- The tier that performed the send attempt. -/
inductive Tier where
  | api
  | ui
deriving DecidableEq

/-- What one send_whatsapp call did: how many health probes were made,
how many POST /send calls were attempted, and which tier the message
was finally handed to. -/
structure SendTrace where
  healthProbes : Nat
  apiSendAttempts : Nat
  usedTier : Tier
deriving DecidableEq

/-- DesktopBridge.send_whatsapp: probe the service once; when the probe
succeeds, POST /send once and finish when the status code is 200;
otherwise (non-200 status, or any exception, with no retry) fall back
to _send_whatsapp_ui, likewise when the probe failed. -/
def send_whatsapp (env : WhatsEnv) : SendTrace :=
  if check_whatsapp_service env then
    match env.send with
    | .ok code =>
        if code = 200 then { healthProbes := 1, apiSendAttempts := 1, usedTier := .api }
        else { healthProbes := 1, apiSendAttempts := 1, usedTier := .ui }
    | .exc _ => { healthProbes := 1, apiSendAttempts := 1, usedTier := .ui }
  else { healthProbes := 1, apiSendAttempts := 0, usedTier := .ui }

/-! ## Dispatcher tools (vyaas_local_commands.py)

The cloud-side tools build a Command Envelope and publish it on the
local_commands topic via _send_local_command.  The transport state is
the _current_room global together with the outcome publish_data would
have: no room set, a publish that raises, or a successful publish. -/

/-- A published Command Envelope (the payload dict with type
local_command). -/
structure SentCommand where
  command : String
  params : Params
deriving DecidableEq

/-- The transport state seen by _send_local_command. -/
inductive RoomState where
  | noRoom
  | publishFails (e : String)
  | publishOk
deriving DecidableEq

/-- _send_local_command (lines 26-52): False with nothing sent when no
room is set or the publish raises; True with the envelope published
otherwise. -/
def send_local_command (room : RoomState) (command : String) (params : Params) :
    Bool × List SentCommand :=
  match room with
  | .noRoom => (false, [])
  | .publishFails _ => (false, [])
  | .publishOk => (true, [{ command := command, params := params }])

/-- ''.join(filter(str.isdigit, phone_number)) of send_whatsapp_local;
the Python str.isdigit predicate is the parameter isdigit. -/
def clean_phone (isdigit : Char → Bool) (phone : String) : String :=
  String.mk (phone.toList.filter isdigit)

/-- open_whatsapp_local. -/
def open_whatsapp_local (room : RoomState) : String × List SentCommand :=
  let r := send_local_command room "open_app" [("app", .s "whatsapp")]
  (if r.1 then "Done! WhatsApp open karne ka command bhej diya hai Bhaiya!"
   else "Error: Desktop bridge se connection nahi hai. Please check if bridge is running.", r.2)

/-- open_maps_local. -/
def open_maps_local (query : String) (room : RoomState) : String × List SentCommand :=
  let r := send_local_command room "open_maps" [("query", .s query)]
  (if r.1 then
     "Done! Google Maps " ++ (if query = "" then "" else "with " ++ query) ++ " open kar diya!"
   else "Error: Desktop bridge se connection nahi hai.", r.2)

/-- open_notes_local. -/
def open_notes_local (content : String) (room : RoomState) : String × List SentCommand :=
  let r := send_local_command room "open_notes" [("content", .s content)]
  (if r.1 then "Done! Notes app open kar diya Bhaiya!"
   else "Error: Desktop bridge se connection nahi hai.", r.2)

/-- open_app_local. -/
def open_app_local (appName : String) (room : RoomState) : String × List SentCommand :=
  let r := send_local_command room "open_app" [("app", .s appName)]
  (if r.1 then "Done! " ++ appName ++ " open karne ka command bhej diya!"
   else "Error: Desktop bridge se connection nahi hai.", r.2)

/-- send_whatsapp_local (lines 114-134): the phone parameter of the
envelope is the digit filtering of the input, the message parameter is
the input message; the success text interpolates the original input. -/
def send_whatsapp_local (isdigit : Char → Bool) (phoneNumber message : String)
    (room : RoomState) : String × List SentCommand :=
  let r := send_local_command room "send_whatsapp"
    [("phone", .s (clean_phone isdigit phoneNumber)), ("message", .s message)]
  (if r.1 then "Done! WhatsApp message " ++ phoneNumber ++ " ko bhejne ka command diya Bhaiya!"
   else "Error: Desktop bridge se connection nahi hai.", r.2)

/-- send_whatsapp_contact_local. -/
def send_whatsapp_contact_local (contactName message : String) (room : RoomState) :
    String × List SentCommand :=
  let r := send_local_command room "send_whatsapp_contact"
    [("contact", .s contactName), ("message", .s message)]
  (if r.1 then "Done! " ++ contactName ++ " ko WhatsApp message bhej diya!"
   else "Error: Desktop bridge se connection nahi hai.", r.2)

/-- type_text_local. -/
def type_text_local (text : String) (room : RoomState) : String × List SentCommand :=
  let r := send_local_command room "type_text" [("text", .s text)]
  (if r.1 then "Done! Text type kar diya!"
   else "Error: Desktop bridge se connection nahi hai.", r.2)

/-- press_key_local. -/
def press_key_local (key : String) (room : RoomState) : String × List SentCommand :=
  let r := send_local_command room "press_key" [("key", .s key)]
  (if r.1 then "Done! " ++ key ++ " press kar diya!"
   else "Error: Desktop bridge se connection nahi hai.", r.2)

/-- open_url_local. -/
def open_url_local (url : String) (room : RoomState) : String × List SentCommand :=
  let r := send_local_command room "open_url" [("url", .s url)]
  (if r.1 then "Done! Browser mein " ++ url ++ " open kar diya!"
   else "Error: Desktop bridge se connection nahi hai.", r.2)

/-- play_youtube_local. -/
def play_youtube_local (query : String) (room : RoomState) : String × List SentCommand :=
  let r := send_local_command room "play_youtube" [("query", .s query)]
  (if r.1 then "Done! YouTube pe " ++ query ++ " search kar raha hoon!"
   else "Error: Desktop bridge se connection nahi hai.", r.2)

/-- take_screenshot_local. -/
def take_screenshot_local (room : RoomState) : String × List SentCommand :=
  let r := send_local_command room "screenshot" []
  (if r.1 then "Done! Screenshot le liya aur Pictures folder mein save kar diya!"
   else "Error: Desktop bridge se connection nahi hai.", r.2)

/-- set_volume_local. -/
def set_volume_local (level : Int) (room : RoomState) : String × List SentCommand :=
  let r := send_local_command room "set_volume" [("level", .i level)]
  (if r.1 then "Done! Volume " ++ toString level ++ "% kar diya!"
   else "Error: Desktop bridge se connection nahi hai.", r.2)

/-- lock_pc_local (lines 239-249). -/
def lock_pc_local (room : RoomState) : String × List SentCommand :=
  let r := send_local_command room "lock_pc" []
  (if r.1 then "Done! PC lock kar diya Bhaiya!"
   else "Error: Desktop bridge se connection nahi hai.", r.2)

/-- shutdown_pc_local. -/
def shutdown_pc_local (delaySeconds : Int) (room : RoomState) : String × List SentCommand :=
  let r := send_local_command room "shutdown" [("delay", .i delaySeconds)]
  (if r.1 then
     "Done! PC " ++ toString delaySeconds ++
       " seconds mein shutdown ho jayega. Cancel karne ke liye bolo."
   else "Error: Desktop bridge se connection nahi hai.", r.2)

/-- cancel_shutdown_local. -/
def cancel_shutdown_local (room : RoomState) : String × List SentCommand :=
  let r := send_local_command room "cancel_shutdown" []
  (if r.1 then "Done! Shutdown cancel kar diya!"
   else "Error: Desktop bridge se connection nahi hai.", r.2)

/-- The constant empty rendering of numbers, used to instantiate render
in closed statements. -/
def renderNone : ℚ → String := fun _ => ""

/-- The invariant tying the dedup cache to the forwarded stream: the id
i has been forwarded once when it is in the cache and never
otherwise. -/
def dedupCount (i : String) (st : ListenerState) : Prop :=
  countId i st.forwarded = if some i ∈ st.cache then 1 else 0

/-- A pending message whose id is not among the ids of msgs101. -/
def msgFresh : Msg :=
  { id := some "fresh", contactName := "c", body := "b",
    isGroup := false, groupName := "" }

/-- A cache already holding 101 ids. -/
def cache101 : List (Option String) :=
  (List.range 101).map (fun n => some (Nat.repr n))

/-! ## Helper lemmas -/

theorem strLeftNeEmpty (a b : String) (h : 0 < a.length) : a ++ b ≠ "" := by
  intro hc
  have h2 := congrArg String.length hc
  rw [String.length_append] at h2
  simp at h2
  omega

theorem cpuClause_ne_empty (render : ℚ → String) (c : ℚ) : cpuClause render c ≠ "" := by
  unfold cpuClause
  rw [String.append_assoc]
  exact strLeftNeEmpty _ _ (by decide)

theorem runExecutor_result (ex : Executors) (n : String) (a : List PVal) :
    (runExecutor ex n a).result = none := by
  unfold runExecutor
  cases ex n a <;> rfl

set_option maxHeartbeats 1000000 in
theorem execute_command_try_result (ex : Executors) (c : Option String) (p : Params) :
    (execute_command_try ex c p).result = none := by
  unfold execute_command_try
  by_cases h1 : c = some "open_app"
  · rw [if_pos h1]; apply runExecutor_result
  rw [if_neg h1]
  by_cases h2 : c = some "open_maps"
  · rw [if_pos h2]; apply runExecutor_result
  rw [if_neg h2]
  by_cases h3 : c = some "open_notes"
  · rw [if_pos h3]; apply runExecutor_result
  rw [if_neg h3]
  by_cases h4 : c = some "send_whatsapp"
  · rw [if_pos h4]; apply runExecutor_result
  rw [if_neg h4]
  by_cases h5 : c = some "send_whatsapp_contact"
  · rw [if_pos h5]; apply runExecutor_result
  rw [if_neg h5]
  by_cases h6 : c = some "type_text"
  · rw [if_pos h6]; apply runExecutor_result
  rw [if_neg h6]
  by_cases h7 : c = some "press_key"
  · rw [if_pos h7]; apply runExecutor_result
  rw [if_neg h7]
  by_cases h8 : c = some "open_url"
  · rw [if_pos h8]; apply runExecutor_result
  rw [if_neg h8]
  by_cases h9 : c = some "play_youtube"
  · rw [if_pos h9]; apply runExecutor_result
  rw [if_neg h9]
  by_cases h10 : c = some "screenshot"
  · rw [if_pos h10]; apply runExecutor_result
  rw [if_neg h10]
  by_cases h11 : c = some "set_volume"
  · rw [if_pos h11]; apply runExecutor_result
  rw [if_neg h11]
  by_cases h12 : c = some "lock_pc"
  · rw [if_pos h12]; apply runExecutor_result
  rw [if_neg h12]
  by_cases h13 : c = some "shutdown"
  · rw [if_pos h13]; apply runExecutor_result
  rw [if_neg h13]
  by_cases h14 : c = some "cancel_shutdown"
  · rw [if_pos h14]; apply runExecutor_result
  rw [if_neg h14]

theorem execute_command_exc (ex : Executors) (c : Option String) (p : Params) :
    (execute_command ex c p).exc = none := by
  unfold execute_command
  cases h : (execute_command_try ex c p).exc <;> simp [h]

theorem execute_command_result (ex : Executors) (c : Option String) (p : Params) :
    (execute_command ex c p).result = none := by
  unfold execute_command
  cases h : (execute_command_try ex c p).exc <;>
    simp [h, execute_command_try_result]

theorem handle_data_exc (ex : Executors) (packet : Except String Envelope) :
    (handle_data ex packet).exc = none := by
  unfold handle_data
  cases packet with
  | error e => rfl
  | ok env =>
      by_cases h : env.type = some "local_command" <;>
        simp [h, execute_command_exc]

theorem handle_data_result (ex : Executors) (packet : Except String Envelope) :
    (handle_data ex packet).result = none := by
  unfold handle_data
  cases packet with
  | error e => rfl
  | ok env =>
      by_cases h : env.type = some "local_command" <;>
        simp [h, execute_command_result]

/-! ## C1 -/

/-- C1 counterexample: a well-formed local_command envelope whose
shared-secret field is "wrong-secret" (matching no configured secret) is
dispatched to the lock_pc executor anyway, with no unauthorized error
result — handle_data performs no authentication, refuting the claim that
the executor is never invoked on a secret mismatch. -/
theorem c1_counterexample :
    handle_data execOk (.ok envWrongSecret) =
      { invoked := ["lock_pc"],
        logs := [⟨"info", "Received command: lock_pc"⟩],
        result := none, exc := none } := by
  decide

/-- C1 amended: the Bridge performs no envelope-level authentication:
the outcome of handle_data is independent of the secret field of the
envelope, and every local_command envelope for a registered command
(here lock_pc) is dispatched to its executor whatever the secret field
holds; no unauthorized error result exists. -/
theorem c1_no_authentication :
    (∀ (ex : Executors) (env : Envelope) (s : Option String),
        handle_data ex (.ok { env with secret := s }) = handle_data ex (.ok env)) ∧
    (∀ (ex : Executors) (p : Params) (s : Option String),
        (handle_data ex (.ok { type := some "local_command", command := some "lock_pc",
                               params := some p, secret := s })).invoked = ["lock_pc"]) := by
  constructor
  · intro ex env s
    rfl
  · intro ex p s
    cases h : ex "lock_pc" [] <;>
      simp [handle_data, execute_command, execute_command_try, runExecutor, h]

/-! ## C2 -/

/-- C2 counterexample: with an executor that raises, execute_command on
lock_pc returns no Execution Result at all (let alone an error-status
one carrying the failure description): its Python return value is None,
refuting the claim that executor failures are converted to an
error-status Execution Result. -/
theorem c2_counterexample :
    (execute_command execBoom (some "lock_pc") []).result = none ∧
    (execute_command execBoom (some "lock_pc") []).invoked = ["lock_pc"] ∧
    (execute_command execBoom (some "lock_pc") []).logs =
      [⟨"error", "Error executing lock_pc: boom"⟩] := by
  refine ⟨?_, ?_, ?_⟩ <;> decide

/-- C2 amended: handling a command never raises an uncaught exception
and never terminates the Bridge — every executor failure is caught at
the execute_command boundary and logged as "Error executing ..." with
the failure description — but no Execution Result with an ok or error
status is returned on any path (execute_command and handle_data both
return None). -/
theorem c2_failures_caught (ex : Executors) (cmd : Option String) (p : Params)
    (e : String) (packet : Except String Envelope) :
    (execute_command ex cmd p).exc = none ∧
    (execute_command ex cmd p).result = none ∧
    (handle_data ex packet).exc = none ∧
    (handle_data ex packet).result = none ∧
    ((execute_command_try ex cmd p).exc = some e →
      (⟨"error", "Error executing " ++ pyShow cmd ++ ": " ++ e⟩ : LogEntry) ∈
        (execute_command ex cmd p).logs) := by
  refine ⟨execute_command_exc ex cmd p, execute_command_result ex cmd p,
    handle_data_exc ex packet, handle_data_result ex packet, ?_⟩
  intro h
  simp [execute_command, h]

/-- C2 witness: at the failing executor execBoom and command lock_pc,
the exception "boom" is caught and the error log entry appears. -/
theorem c2_witness :
    (⟨"error", "Error executing lock_pc: boom"⟩ : LogEntry) ∈
      (execute_command execBoom (some "lock_pc") []).logs :=
  (c2_failures_caught execBoom (some "lock_pc") [] "boom"
    (.ok envWrongSecret)).2.2.2.2 (by decide)

/-! ## C3 -/

/-- C3 counterexample: for the unknown command fly_to_moon the Bridge
logs a warning naming it and invokes nothing, but it returns no error
result naming the unknown command — its return value is None — refuting
the claim that an error result is returned. -/
theorem c3_counterexample :
    execute_command execOk (some "fly_to_moon") [] =
      { invoked := [], logs := [⟨"warning", "Unknown command: fly_to_moon"⟩],
        result := none, exc := none } := by
  decide

/-- C3 amended: for every command name outside the dispatch chain, no
executor is invoked, a warning naming the unknown command is logged, the
condition is never fatal (no exception escapes), and no error result is
returned (the result is None). -/
theorem c3_unknown_command (ex : Executors) (cmd : Option String) (p : Params)
    (hyp : ∀ c ∈ registeredCommands, cmd ≠ some c) :
    execute_command ex cmd p =
      { invoked := [], logs := [⟨"warning", "Unknown command: " ++ pyShow cmd⟩],
        result := none, exc := none } := by
  have h1 : ¬(cmd = some "open_app") := hyp "open_app" (by simp [registeredCommands])
  have h2 : ¬(cmd = some "open_maps") := hyp "open_maps" (by simp [registeredCommands])
  have h3 : ¬(cmd = some "open_notes") := hyp "open_notes" (by simp [registeredCommands])
  have h4 : ¬(cmd = some "send_whatsapp") := hyp "send_whatsapp" (by simp [registeredCommands])
  have h5 : ¬(cmd = some "send_whatsapp_contact") :=
    hyp "send_whatsapp_contact" (by simp [registeredCommands])
  have h6 : ¬(cmd = some "type_text") := hyp "type_text" (by simp [registeredCommands])
  have h7 : ¬(cmd = some "press_key") := hyp "press_key" (by simp [registeredCommands])
  have h8 : ¬(cmd = some "open_url") := hyp "open_url" (by simp [registeredCommands])
  have h9 : ¬(cmd = some "play_youtube") := hyp "play_youtube" (by simp [registeredCommands])
  have h10 : ¬(cmd = some "screenshot") := hyp "screenshot" (by simp [registeredCommands])
  have h11 : ¬(cmd = some "set_volume") := hyp "set_volume" (by simp [registeredCommands])
  have h12 : ¬(cmd = some "lock_pc") := hyp "lock_pc" (by simp [registeredCommands])
  have h13 : ¬(cmd = some "shutdown") := hyp "shutdown" (by simp [registeredCommands])
  have h14 : ¬(cmd = some "cancel_shutdown") :=
    hyp "cancel_shutdown" (by simp [registeredCommands])
  have hs : execute_command_try ex cmd p =
      { invoked := [], logs := [⟨"warning", "Unknown command: " ++ pyShow cmd⟩],
        result := none, exc := none } := by
    unfold execute_command_try
    rw [if_neg h1, if_neg h2, if_neg h3, if_neg h4, if_neg h5, if_neg h6, if_neg h7,
      if_neg h8, if_neg h9, if_neg h10, if_neg h11, if_neg h12, if_neg h13, if_neg h14]
  simp only [execute_command, hs]

/-- C3 witness: the theorem applied at the concrete unknown command
make_coffee. -/
theorem c3_witness :
    execute_command execOk (some "make_coffee") [] =
      { invoked := [], logs := [⟨"warning", "Unknown command: make_coffee"⟩],
        result := none, exc := none } :=
  c3_unknown_command execOk (some "make_coffee") [] (by decide)

/-! ## C4 -/

theorem countId_append (i : String) (ms : List Msg) (m : Msg) :
    countId i (ms ++ [m]) = countId i ms + (if m.id = some i then 1 else 0) := by
  by_cases h : m.id = some i <;> simp [countId, List.filter_append, h]

theorem pollStep_dedup (i : String) (st : ListenerState) (m : Msg)
    (h : dedupCount i st) : dedupCount i (pollStep st m) := by
  unfold pollStep
  split
  case h_2 => exact h
  case h_1 j hm =>
    by_cases hj : j = ""
    · simpa [hj] using h
    · by_cases hc : some j ∈ st.cache
      · simpa [hj, hc] using h
      · rw [if_neg hj, if_neg hc]
        unfold dedupCount at h ⊢
        by_cases hji : j = i
        · subst hji
          rw [if_neg hc] at h
          rw [countId_append, h, hm]
          simp
        · rw [countId_append, hm]
          have : ¬(some i ∈ st.cache ++ [some j]) ∨ some i ∈ st.cache := by
            by_cases hci : some i ∈ st.cache
            · right; exact hci
            · left
              simp [List.mem_append, hci]
              exact fun he => hji he.symm
          simp only [List.mem_append]
          have hne2 : ¬(some j = some i) := by simp [hji]
          rw [if_neg hne2]
          rcases this with hl | hr
          · simp only [List.mem_append] at hl
            push_neg at hl
            rw [if_neg hl.1] at h
            rw [h]
            have hij : ¬i = j := fun hh => hji hh.symm
            simp [hl.1, hij]
          · rw [if_pos hr] at h
            rw [h]
            simp [hr]

theorem pollStep_cache_mono (st : ListenerState) (m : Msg) (x : Option String)
    (h : x ∈ st.cache) : x ∈ (pollStep st m).cache := by
  unfold pollStep
  split
  case h_2 => exact h
  case h_1 j hm =>
    by_cases hj : j = ""
    · simpa [hj] using h
    · by_cases hc : some j ∈ st.cache
      · simpa [hj, hc] using h
      · rw [if_neg hj, if_neg hc]
        simp only [List.mem_append]
        exact Or.inl h

theorem pollStep_adds (st : ListenerState) (m : Msg) (i : String)
    (hm : m.id = some i) (hne : i ≠ "") : some i ∈ (pollStep st m).cache := by
  unfold pollStep
  split
  case h_2 hnone => rw [hm] at hnone; cases hnone
  case h_1 j hj =>
    rw [hm] at hj
    cases hj
    rw [if_neg hne]
    by_cases hc : some i ∈ st.cache
    · simp [hc]
    · rw [if_neg hc]
      simp

theorem pollTick_dedup (i : String) (pending : List Msg) :
    ∀ st : ListenerState, dedupCount i st → dedupCount i (pollTick st pending) := by
  induction pending with
  | nil => intro st h; exact h
  | cons a rest ih =>
      intro st h
      have : pollTick st (a :: rest) = pollTick (pollStep st a) rest := rfl
      rw [this]
      exact ih _ (pollStep_dedup i st a h)

theorem pollTick_cache_mono (x : Option String) (pending : List Msg) :
    ∀ st : ListenerState, x ∈ st.cache → x ∈ (pollTick st pending).cache := by
  induction pending with
  | nil => intro st h; exact h
  | cons a rest ih =>
      intro st h
      exact ih _ (pollStep_cache_mono st a x h)

theorem pollTick_adds (i : String) (m : Msg) (pending : List Msg)
    (hm : m.id = some i) (hne : i ≠ "") :
    ∀ st : ListenerState, m ∈ pending → some i ∈ (pollTick st pending).cache := by
  induction pending with
  | nil => intro st h; simp at h
  | cons a rest ih =>
      intro st hmem
      rcases List.mem_cons.mp hmem with h | h
      · subst h
        exact pollTick_cache_mono _ rest _ (pollStep_adds st m i hm hne)
      · exact ih _ h

theorem pollTicks_dedup (i : String) (ticks : List (List Msg)) :
    ∀ st : ListenerState, dedupCount i st → dedupCount i (pollTicks st ticks) := by
  induction ticks with
  | nil => intro st h; exact h
  | cons t rest ih =>
      intro st h
      exact ih _ (pollTick_dedup i t st h)

theorem pollTicks_cache_mono (x : Option String) (ticks : List (List Msg)) :
    ∀ st : ListenerState, x ∈ st.cache → x ∈ (pollTicks st ticks).cache := by
  induction ticks with
  | nil => intro st h; exact h
  | cons t rest ih =>
      intro st h
      exact ih _ (pollTick_cache_mono x t st h)

theorem pollTicks_adds (i : String) (m : Msg) (ticks : List (List Msg))
    (hm : m.id = some i) (hne : i ≠ "") :
    ∀ st : ListenerState, (∃ t, t ∈ ticks ∧ m ∈ t) → some i ∈ (pollTicks st ticks).cache := by
  induction ticks with
  | nil => rintro st ⟨t, ht, _⟩; simp at ht
  | cons t rest ih =>
      rintro st ⟨u, hu, hmu⟩
      rcases List.mem_cons.mp hu with h | h
      · subst h
        exact pollTicks_cache_mono _ rest _ (pollTick_adds i m u hm hne st hmu)
      · exact ih _ ⟨u, h, hmu⟩

/-- C4 counterexample: in the poll loop of the Desktop Bridge itself
(DesktopBridge.poll_whatsapp_messages), which keeps no dedup cache, the
event with id m1 appearing in the pending lists of two consecutive poll
ticks is forwarded twice, refuting the claim that such an event is
forwarded exactly once. -/
theorem c4_counterexample :
    countId "m1" (bridgePollForwards [[msgM1], [msgM1]]) = 2 := by
  decide

/-- C4 amended: the poller of the listener module
(vyaas_whatsapp_listener.poll_whatsapp_messages) does deduplicate: over
any tick sequence from a fresh start, an id is forwarded at most once,
and an event with a nonempty id appearing in any pending list (in
particular in two consecutive ones) is forwarded exactly once; the
poller of the Desktop Bridge, however, has no dedup cache and forwards
every delivery (see the counterexample). -/
theorem c4_listener_dedup (ticks : List (List Msg)) (i : String) :
    countId i (pollTicks ⟨[], []⟩ ticks).forwarded ≤ 1 ∧
    ((∃ t, t ∈ ticks ∧ ∃ m, m ∈ t ∧ m.id = some i ∧ i ≠ "") →
      countId i (pollTicks ⟨[], []⟩ ticks).forwarded = 1) := by
  have hinit : dedupCount i ⟨[], []⟩ := by
    unfold dedupCount countId
    simp
  have hinv := pollTicks_dedup i ticks ⟨[], []⟩ hinit
  unfold dedupCount at hinv
  constructor
  · rw [hinv]
    split <;> omega
  · rintro ⟨t, ht, m, hm, hid, hne⟩
    have hc : some i ∈ (pollTicks ⟨[], []⟩ ticks).cache :=
      pollTicks_adds i m ticks hid hne ⟨[], []⟩ ⟨t, ht, hm⟩
    rw [hinv, if_pos hc]

/-- C4 witness: the id m1 delivered in two consecutive listener poll
ticks is forwarded exactly once. -/
theorem c4_witness :
    countId "m1" (pollTicks ⟨[], []⟩ [[msgM1], [msgM1]]).forwarded = 1 :=
  (c4_listener_dedup [[msgM1], [msgM1]] "m1").2
    ⟨[msgM1], by simp, msgM1, by simp, rfl, by decide⟩

/-! ## C5 -/

set_option maxRecDepth 4000 in
/-- C5 counterexample: the listener poll loop inserts into the dedup
cache with no cap: one tick delivering 101 distinct new ids leaves the
cache at size 101 > 100, refuting the claim that the size bound is
preserved by every operation that touches the cache. -/
theorem c5_counterexample :
    (pollTick ⟨[], []⟩ msgs101).cache.length = 101 := by
  decide

/-- C5 amended: only the check_whatsapp_messages tool enforces the cap:
starting from a cache within the cap its result cache is within the cap;
a pending message whose id is not in the cache (in particular a
re-delivered event whose id was evicted) is reported again; and whenever
the post-insertion cache exceeds 100 ids it is cut to exactly the last
50 ids of the set iteration order (half the cap, not half the current
size).  The poll loop shares the cache but never trims it (see the
counterexample). -/
theorem c5_cache_bound (cache : List (Option String)) (pending : List Msg) :
    (cache.length ≤ 100 → (check_whatsapp_messages cache pending).1.length ≤ 100) ∧
    (∀ m, m ∈ pending → ¬(m.id ∈ cache) → m ∈ (check_whatsapp_messages cache pending).2) ∧
    (newMessages cache pending ≠ [] →
      (addIds cache (newMessages cache pending)).length > 100 →
      (check_whatsapp_messages cache pending).1.length = 50) := by
  refine ⟨?_, ?_, ?_⟩
  · intro hlen
    unfold check_whatsapp_messages
    by_cases he : (newMessages cache pending).isEmpty
    · simpa [he] using hlen
    · simp only [he, if_false, Bool.false_eq_true]
      unfold trimCache
      split
      · rw [List.length_drop]
        omega
      · omega
  · intro m hm hni
    have hmem : m ∈ newMessages cache pending := by
      simp [newMessages, List.mem_filter, hm, hni]
    have hne : ¬(newMessages cache pending).isEmpty := by
      intro h0
      rw [List.isEmpty_iff] at h0
      rw [h0] at hmem
      simp at hmem
    unfold check_whatsapp_messages
    simpa [hne] using hmem
  · intro hne hgt
    have hne2 : ¬(newMessages cache pending).isEmpty := by
      simpa [List.isEmpty_iff] using hne
    unfold check_whatsapp_messages
    simp only [hne2, if_false, Bool.false_eq_true]
    unfold trimCache
    rw [if_pos hgt, List.length_drop]
    omega

set_option maxRecDepth 4000 in
/-- C5 witness: a fresh message against a cache of 101 ids is reported
again, the result cache is cut to exactly 50 ids, and from a small cache
the bound holds. -/
theorem c5_witness :
    msgFresh ∈ (check_whatsapp_messages cache101 [msgFresh]).2 ∧
    (check_whatsapp_messages cache101 [msgFresh]).1.length = 50 ∧
    (check_whatsapp_messages [] [msgFresh]).1.length ≤ 100 :=
  ⟨(c5_cache_bound cache101 [msgFresh]).2.1 msgFresh (by simp) (by decide),
   (c5_cache_bound cache101 [msgFresh]).2.2 (by decide) (by decide),
   (c5_cache_bound [] [msgFresh]).1 (by decide)⟩

/-! ## C6 -/

theorem monitorEmissions_gap (render : ℚ → String) (samples : List Sample) :
    ∀ last : ℚ, ∀ p ∈ monitorEmissions render last samples, p.1 - last > 60 := by
  induction samples with
  | nil =>
      intro last p hp
      simp [monitorEmissions] at hp
  | cons s rest ih =>
      intro last p hp
      simp only [monitorEmissions] at hp
      by_cases h1 : s.time - last > 60
      · by_cases h2 : alertMsg render s = ""
        · simp only [monitorTick, if_pos h1, if_pos h2, List.nil_append] at hp
          exact ih last p hp
        · simp only [monitorTick, if_pos h1, if_neg h2, List.singleton_append] at hp
          rcases List.mem_cons.mp hp with h | h
          · rw [h]
            exact h1
          · have hg := ih s.time p h
            linarith
      · simp only [monitorTick, if_neg h1, List.nil_append] at hp
        exact ih last p hp

theorem monitorEmissions_pairwise (render : ℚ → String) (samples : List Sample) :
    ∀ last : ℚ,
      List.Pairwise (fun a b : ℚ × String => b.1 - a.1 > 60)
        (monitorEmissions render last samples) := by
  induction samples with
  | nil =>
      intro last
      simp [monitorEmissions]
  | cons s rest ih =>
      intro last
      simp only [monitorEmissions]
      by_cases h1 : s.time - last > 60
      · by_cases h2 : alertMsg render s = ""
        · simp only [monitorTick, if_pos h1, if_pos h2, List.nil_append]
          exact ih last
        · simp only [monitorTick, if_pos h1, if_neg h2, List.singleton_append]
          refine List.Pairwise.cons ?_ (ih s.time)
          intro b hb
          exact monitorEmissions_gap render rest s.time b hb
      · simp only [monitorTick, if_neg h1, List.nil_append]
        exact ih last

/-- C6 counterexample: with the first alert emitted at time 1000, a
breaching tick at time 1060 — exactly cooldownSeconds after the last
alert, so the cooldown has elapsed — is still suppressed (the code
requires strictly more than 60 seconds), refuting the claim that a
breaching tick after the cooldown has elapsed emits a second alert. -/
theorem c6_counterexample :
    (monitorEmissions renderNone 0 [cpuOnlySample 1000, cpuOnlySample 1060]).map
      Prod.fst = [(1000 : ℚ)] := by
  have hne : cpuClause renderNone 95 ≠ "" := cpuClause_ne_empty renderNone 95
  have h95 : ((95 : ℚ) > 90) := by norm_num
  have h50 : ¬((50 : ℚ) > 90) := by norm_num
  norm_num [monitorEmissions, monitorTick, alertMsg, cpuOnlySample, h95, h50, hne]

/-- C6 amended: the Health Monitor never emits two alerts within 60
seconds of each other — any two emissions of any run are strictly more
than cooldownSeconds apart, so of two breaching ticks less than 60
seconds apart exactly the first emits — and each emission resets
last_alert_time; but a further breaching tick emits again only strictly
more than 60 seconds after the last alert (at exactly 60 seconds it is
still suppressed, see the counterexample): in the scenario with
breaching ticks at times 1000, 1030 and 1100, exactly the ticks at 1000
and 1100 emit. -/
theorem c6_alert_cooldown :
    (∀ (render : ℚ → String) (last : ℚ) (samples : List Sample),
      List.Pairwise (fun a b : ℚ × String => b.1 - a.1 > 60)
        (monitorEmissions render last samples)) ∧
    (∀ render : ℚ → String,
      (monitorEmissions render 0
        [cpuOnlySample 1000, cpuOnlySample 1030, cpuOnlySample 1100]).map
        Prod.fst = [1000, 1100]) := by
  constructor
  · intro render last samples
    exact monitorEmissions_pairwise render samples last
  · intro render
    have hne : cpuClause render 95 ≠ "" := cpuClause_ne_empty render 95
    have h95 : ((95 : ℚ) > 90) := by norm_num
    have h50 : ¬((50 : ℚ) > 90) := by norm_num
    norm_num [monitorEmissions, monitorTick, alertMsg, cpuOnlySample, h95, h50, hne]

/-! ## C7 -/

/-- C7 confirmed: on a tick the composed alert message is the
concatenation of exactly one clause per breached condition (CPU, RAM,
disk, high-usage process) and no clause for an unbreached one; and on a
tick with CPU 95%, RAM 50%, disk 50%, no high-usage process and the
cooldown elapsed, exactly one alert is emitted, containing only the CPU
clause, and last_alert_time resets to the tick time. -/
theorem c7_alert_composition :
    (∀ (render : ℚ → String) (s : Sample),
      alertMsg render s = joinClauses (specBreachClauses render s)) ∧
    (∀ (render : ℚ → String) (last t : ℚ), t - last > 60 →
      monitorTick render last (cpuOnlySample t) = (t, [(t, cpuClause render 95)])) := by
  constructor
  · intro render s
    rcases s with ⟨t, c, r, d, ha⟩
    cases ha <;> simp [alertMsg, specBreachClauses, joinClauses] <;> split_ifs <;> simp
  · intro render last t h
    have h95 : ((95 : ℚ) > 90) := by norm_num
    have h50 : ¬((50 : ℚ) > 90) := by norm_num
    have hne : cpuClause render 95 ≠ "" := cpuClause_ne_empty render 95
    simp [monitorTick, alertMsg, cpuOnlySample, h95, h50, hne, h]

/-- C7 witness: the scenario tick at time 1000 against last_alert_time
0 (cooldown elapsed) emits exactly the CPU clause and resets the
timer. -/
theorem c7_witness :
    ((1000 : ℚ) - 0 > 60) ∧
    monitorTick renderNone 0 (cpuOnlySample 1000) =
      (1000, [(1000, cpuClause renderNone 95)]) :=
  ⟨by norm_num, c7_alert_composition.2 renderNone 0 1000 (by norm_num)⟩

/-! ## C8 -/

/-- C8 counterexample: a health probe that raises a timeout makes
send_whatsapp fall back to the UI tier after a single probe attempt and
with no retry and no send attempt, and a 204 response to the direct
send (a 2xx success) also triggers the UI fallback: both refute the
claim that fallback happens only on a definitive negative signal and
never on an ambiguous timeout without one retry. -/
theorem c8_counterexample :
    send_whatsapp { health := .exc "ReadTimeout", send := .ok 200 } =
      { healthProbes := 1, apiSendAttempts := 0, usedTier := .ui } ∧
    send_whatsapp { health := .ok ⟨200, true, false⟩, send := .ok 204 } =
      { healthProbes := 1, apiSendAttempts := 1, usedTier := .ui } :=
  ⟨rfl, rfl⟩

/-- C8 amended: the API tier is always tried first — exactly one health
probe per call, and the direct send is attempted exactly when the probe
returned HTTP 200 with a truthy ready flag — but the fallback to the UI
tier happens on every other outcome (non-200 status including other
2xx codes, not-ready flag, or any exception including ambiguous
timeouts) with no retry; only an HTTP 200 response to the send skips
the UI tier. -/
theorem c8_api_first_no_retry (env : WhatsEnv) :
    (send_whatsapp env).healthProbes = 1 ∧
    (send_whatsapp env).apiSendAttempts =
      (if check_whatsapp_service env then 1 else 0) ∧
    ((send_whatsapp env).usedTier = Tier.api ↔
      (check_whatsapp_service env = true ∧ env.send = NetResult.ok 200)) := by
  rcases env with ⟨h, snd⟩
  by_cases hc : check_whatsapp_service ⟨h, snd⟩
  · cases snd with
    | ok code =>
        by_cases h200 : code = 200
        · subst h200
          simp [send_whatsapp, hc]
        · simp [send_whatsapp, hc, h200]
    | exc e =>
        simp [send_whatsapp, hc]
  · simp [send_whatsapp, hc]

/-! ## C9 -/

/-- C9 confirmed: whenever the transport is unreachable (no room set, or
the publish raises), every dispatcher tool returns its bridge-unreachable
error text and publishes nothing; when the envelope is published, every
tool returns its success text and exactly its Command Envelope is
published. -/
theorem c9_tools_report (query content app phone msg contact text key url yq : String)
    (isd : Char → Bool) (level delay : Int) :
    (∀ room : RoomState, room ≠ RoomState.publishOk →
      open_whatsapp_local room =
        ("Error: Desktop bridge se connection nahi hai. Please check if bridge is running.",
         []) ∧
      open_maps_local query room = ("Error: Desktop bridge se connection nahi hai.", []) ∧
      open_notes_local content room = ("Error: Desktop bridge se connection nahi hai.", []) ∧
      open_app_local app room = ("Error: Desktop bridge se connection nahi hai.", []) ∧
      send_whatsapp_local isd phone msg room =
        ("Error: Desktop bridge se connection nahi hai.", []) ∧
      send_whatsapp_contact_local contact msg room =
        ("Error: Desktop bridge se connection nahi hai.", []) ∧
      type_text_local text room = ("Error: Desktop bridge se connection nahi hai.", []) ∧
      press_key_local key room = ("Error: Desktop bridge se connection nahi hai.", []) ∧
      open_url_local url room = ("Error: Desktop bridge se connection nahi hai.", []) ∧
      play_youtube_local yq room = ("Error: Desktop bridge se connection nahi hai.", []) ∧
      take_screenshot_local room = ("Error: Desktop bridge se connection nahi hai.", []) ∧
      set_volume_local level room = ("Error: Desktop bridge se connection nahi hai.", []) ∧
      lock_pc_local room = ("Error: Desktop bridge se connection nahi hai.", []) ∧
      shutdown_pc_local delay room = ("Error: Desktop bridge se connection nahi hai.", []) ∧
      cancel_shutdown_local room = ("Error: Desktop bridge se connection nahi hai.", [])) ∧
    (open_whatsapp_local .publishOk =
        ("Done! WhatsApp open karne ka command bhej diya hai Bhaiya!",
         [{ command := "open_app", params := [("app", .s "whatsapp")] }]) ∧
     open_maps_local query .publishOk =
        ("Done! Google Maps " ++ (if query = "" then "" else "with " ++ query) ++
           " open kar diya!",
         [{ command := "open_maps", params := [("query", .s query)] }]) ∧
     open_notes_local content .publishOk =
        ("Done! Notes app open kar diya Bhaiya!",
         [{ command := "open_notes", params := [("content", .s content)] }]) ∧
     open_app_local app .publishOk =
        ("Done! " ++ app ++ " open karne ka command bhej diya!",
         [{ command := "open_app", params := [("app", .s app)] }]) ∧
     send_whatsapp_local isd phone msg .publishOk =
        ("Done! WhatsApp message " ++ phone ++ " ko bhejne ka command diya Bhaiya!",
         [{ command := "send_whatsapp",
            params := [("phone", .s (clean_phone isd phone)), ("message", .s msg)] }]) ∧
     send_whatsapp_contact_local contact msg .publishOk =
        ("Done! " ++ contact ++ " ko WhatsApp message bhej diya!",
         [{ command := "send_whatsapp_contact",
            params := [("contact", .s contact), ("message", .s msg)] }]) ∧
     type_text_local text .publishOk =
        ("Done! Text type kar diya!",
         [{ command := "type_text", params := [("text", .s text)] }]) ∧
     press_key_local key .publishOk =
        ("Done! " ++ key ++ " press kar diya!",
         [{ command := "press_key", params := [("key", .s key)] }]) ∧
     open_url_local url .publishOk =
        ("Done! Browser mein " ++ url ++ " open kar diya!",
         [{ command := "open_url", params := [("url", .s url)] }]) ∧
     play_youtube_local yq .publishOk =
        ("Done! YouTube pe " ++ yq ++ " search kar raha hoon!",
         [{ command := "play_youtube", params := [("query", .s yq)] }]) ∧
     take_screenshot_local .publishOk =
        ("Done! Screenshot le liya aur Pictures folder mein save kar diya!",
         [{ command := "screenshot", params := [] }]) ∧
     set_volume_local level .publishOk =
        ("Done! Volume " ++ toString level ++ "% kar diya!",
         [{ command := "set_volume", params := [("level", .i level)] }]) ∧
     lock_pc_local .publishOk =
        ("Done! PC lock kar diya Bhaiya!", [{ command := "lock_pc", params := [] }]) ∧
     shutdown_pc_local delay .publishOk =
        ("Done! PC " ++ toString delay ++
           " seconds mein shutdown ho jayega. Cancel karne ke liye bolo.",
         [{ command := "shutdown", params := [("delay", .i delay)] }]) ∧
     cancel_shutdown_local .publishOk =
        ("Done! Shutdown cancel kar diya!",
         [{ command := "cancel_shutdown", params := [] }])) := by
  constructor
  · intro room hr
    cases room with
    | noRoom =>
        exact ⟨rfl, rfl, rfl, rfl, rfl, rfl, rfl, rfl, rfl, rfl, rfl, rfl, rfl, rfl, rfl⟩
    | publishFails e =>
        exact ⟨rfl, rfl, rfl, rfl, rfl, rfl, rfl, rfl, rfl, rfl, rfl, rfl, rfl, rfl, rfl⟩
    | publishOk =>
        exact absurd rfl hr
  · exact ⟨rfl, rfl, rfl, rfl, rfl, rfl, rfl, rfl, rfl, rfl, rfl, rfl, rfl, rfl, rfl⟩

/-- C9 witness: with no room set the first tool reports the
bridge-unreachable error, and with a working publish it reports
success with the envelope published. -/
theorem c9_witness :
    open_whatsapp_local RoomState.noRoom =
      ("Error: Desktop bridge se connection nahi hai. Please check if bridge is running.",
       []) ∧
    open_whatsapp_local RoomState.publishOk =
      ("Done! WhatsApp open karne ka command bhej diya hai Bhaiya!",
       [{ command := "open_app", params := [("app", .s "whatsapp")] }]) :=
  ⟨((c9_tools_report "" "" "" "" "" "" "" "" "" "" (fun _ => true) 0 0).1
      RoomState.noRoom (by decide)).1,
   (c9_tools_report "" "" "" "" "" "" "" "" "" "" (fun _ => true) 0 0).2.1⟩

/-! ## C10 -/

/-- C10 confirmed: send_whatsapp_local publishes a Command Envelope
whose phone parameter is exactly the digit characters of the input in
their original order — a sublist of the input characters, each
satisfying the digit predicate, containing every digit character of the
input — and whose message parameter is the input message unchanged. -/
theorem c10_phone_digit_filtering (isd : Char → Bool) (phone msg : String) :
    (send_whatsapp_local isd phone msg RoomState.publishOk).2 =
      [{ command := "send_whatsapp",
         params := [("phone", PVal.s (clean_phone isd phone)),
                    ("message", PVal.s msg)] }] ∧
    (clean_phone isd phone).toList = phone.toList.filter isd ∧
    List.Sublist (clean_phone isd phone).toList phone.toList ∧
    (∀ ch, ch ∈ (clean_phone isd phone).toList → isd ch = true) ∧
    (∀ ch, ch ∈ phone.toList → isd ch = true →
      ch ∈ (clean_phone isd phone).toList) := by
  have h : (clean_phone isd phone).toList = phone.toList.filter isd := rfl
  refine ⟨rfl, h, ?_, ?_, ?_⟩
  · rw [h]
    exact List.filter_sublist _
  · intro ch hch
    rw [h] at hch
    exact (List.mem_filter.mp hch).2
  · intro ch h1 h2
    rw [h]
    exact List.mem_filter.mpr ⟨h1, h2⟩

/-- C10 witness: on the concrete input the phone parameter is the
digit filtering and keeps the digit 9. -/
theorem c10_witness :
    (clean_phone Char.isDigit "+91 (98) 76-54").toList =
      "+91 (98) 76-54".toList.filter Char.isDigit ∧
    '9' ∈ (clean_phone Char.isDigit "+91 (98) 76-54").toList :=
  ⟨(c10_phone_digit_filtering Char.isDigit "+91 (98) 76-54" "hi").2.1,
   (c10_phone_digit_filtering Char.isDigit "+91 (98) 76-54" "hi").2.2.2.2 '9'
     (by decide) (by decide)⟩

end Vyaas
